import Mathlib

/-!
# j2k codec abstraction: data model and helper functions

A shallow embedding of `src/common/j2k_codec.h` (namespace `j2k`): the value
types with their constructors, the capability flags of `Codec`, and the free
functions declared at the end of the header.

Machine integers are natural numbers or integers. The constructors store
either literals that fit the declared C++ field type or arguments that already
have that type, so no conversion wraps around and none is written. Pointers
are `Option Nat` (`none` for `NULL`).
-/

namespace j2k

/-! ## Enumerations -/

/-- The `enum Format` of the header. -/
inductive Format where
  | UNKNOWN_FORMAT
  | J2C
  | JP2
  | JPX
  deriving DecidableEq

/-- The `enum Alpha` of the header. -/
inductive Alpha where
  | NO_ALPHA
  | UNKNOWN_ALPHA
  | PREMULTIPLIED
  | STRAIGHT
  deriving DecidableEq

/-- The `enum ColorSpace` of the header. -/
inductive ColorSpace where
  | UNKNOWN_COLOR_SPACE
  | sRGB
  | sLUM
  | sYCC
  | esRGB
  | esYCC
  | ROMM
  | CMYK
  | CIELab
  | iccLUM
  | iccRGB
  | iccANY
  deriving DecidableEq

/-- The `enum ChannelName` of the header. -/
inductive ChannelName where
  | RED
  | GREEN
  | BLUE
  | ALPHA
  | CYAN
  | MAGENTA
  | YELLOW
  | BLACK
  deriving DecidableEq

/-- The `enum CompressionMethod` of the header. -/
inductive CompressionMethod where
  | LOSSLESS
  | SIZE
  | QUALITY
  | CINEMA
  deriving DecidableEq

/-- The `enum Order` of the header (progression orders). -/
inductive Order where
  | LRCP
  | RLCP
  | RPCL
  | PCRL
  | CPRL
  deriving DecidableEq

/-- The `enum DCIProfile` of the header. -/
inductive DCIProfile where
  | DCI_2K
  | DCI_4K
  deriving DecidableEq

/-- The `enum SampleType` of the header. -/
inductive SampleType where
  | UCHAR
  | USHORT
  | UINT
  | INT
  deriving DecidableEq

/-! ## Constants -/

/-- The `#define J2K_CODEC_MAX_CHANNELS 4`. -/
def J2K_CODEC_MAX_CHANNELS : Nat := 4

/-- The `#define J2K_CODEC_MAX_LUT_ENTRIES 256`. -/
def J2K_CODEC_MAX_LUT_ENTRIES : Nat := 256

/-- The `#define J2K_CODEC_MAX_LAYERS 50`. -/
def J2K_CODEC_MAX_LAYERS : Nat := 50

/-! ## Rational and Subsampling -/

/-- The `struct Rational`: `int num; unsigned int den;`. -/
structure Rational where
  num : Int
  den : Nat
  deriving DecidableEq

/-- The constructor `Rational(int n, unsigned int d) : num(n), den(d) {}` with
both arguments given. -/
def Rational.ctor (n : Int) (d : Nat) : Rational :=
  { num := n, den := d }

/-- The call `Rational(n)`: the second argument takes its default `d = 1`. -/
def Rational.ctor1 (n : Int) : Rational :=
  Rational.ctor n 1

/-- The call `Rational()`: both arguments take their defaults `n = 0, d = 1`. -/
def Rational.ctor0 : Rational :=
  Rational.ctor 0 1

/-- The `struct Subsampling`: `int x; int y;`. -/
structure Subsampling where
  x : Int
  y : Int
  deriving DecidableEq

/-- The constructor `Subsampling(int xin, int yin) : x(xin), y(yin) {}` with
both arguments given. -/
def Subsampling.ctor (xin yin : Int) : Subsampling :=
  { x := xin, y := yin }

/-- The call `Subsampling()`: both arguments take their defaults
`xin = 1, yin = 1`. -/
def Subsampling.ctor0 : Subsampling :=
  Subsampling.ctor 1 1

/-! ## CompressionSettings -/

/-- The `struct CompressionSettings`. -/
structure CompressionSettings where
  method : CompressionMethod
  fileSize : Nat
  quality : Nat
  layers : Nat
  order : Order
  dciProfile : DCIProfile
  tileSize : Nat
  ycc : Bool
  reversible : Bool
  deriving DecidableEq

/-- The constructor `CompressionSettings()` with its member initialiser list. -/
def CompressionSettings.ctor : CompressionSettings :=
  { method := CompressionMethod.LOSSLESS
    fileSize := 50
    quality := 50
    layers := 12
    order := Order.RPCL
    dciProfile := DCIProfile.DCI_2K
    tileSize := 1024
    ycc := false
    reversible := false }

/-! ## FileInfo -/

/-- The `struct LUTentry`: `unsigned char channel[J2K_CODEC_MAX_CHANNELS]`. -/
structure LUTentry where
  channel : List Nat
  deriving DecidableEq

/-- The `struct FileInfo`. The `float dpi` field is held as the exact rational
it stores; arrays are lists. -/
structure FileInfo where
  width : Nat
  height : Nat
  channels : Nat
  depth : Nat
  subsampling : List Subsampling
  format : Format
  pixelAspect : Rational
  dpi : Rat
  alpha : Alpha
  colorSpace : ColorSpace
  iccProfile : Option Nat
  profileLen : Nat
  channelMap : List ChannelName
  LUTmap : List ChannelName
  LUTsize : Nat
  LUT : List LUTentry
  settings : CompressionSettings

/-- The constructor `FileInfo()`. Members absent from the initialiser list are
default-constructed: each of the `J2K_CODEC_MAX_CHANNELS` entries of
`subsampling` by `Subsampling()`, and `settings` by `CompressionSettings()`.
`LUTentry` has no constructor, so the `LUT` array keeps whatever the storage
held before; that content is the argument `lut`. The body then assigns the
four entries of `channelMap` and of `LUTmap`. -/
def FileInfo.ctor (lut : List LUTentry) : FileInfo :=
  { width := 0
    height := 0
    channels := 0
    depth := 0
    subsampling := List.replicate J2K_CODEC_MAX_CHANNELS Subsampling.ctor0
    format := Format.UNKNOWN_FORMAT
    pixelAspect := Rational.ctor 0 1
    dpi := 0
    alpha := Alpha.NO_ALPHA
    colorSpace := ColorSpace.UNKNOWN_COLOR_SPACE
    iccProfile := none
    profileLen := 0
    channelMap := [ChannelName.RED, ChannelName.GREEN, ChannelName.BLUE, ChannelName.ALPHA]
    LUTmap := [ChannelName.RED, ChannelName.GREEN, ChannelName.BLUE, ChannelName.ALPHA]
    LUTsize := 0
    LUT := lut
    settings := CompressionSettings.ctor }

/-! ## Channel -/

/-- The `struct Channel`; `buf` is a pointer, `colbytes` and `rowbytes` are
`intptr_t`. -/
structure Channel where
  width : Nat
  height : Nat
  subsampling : Subsampling
  sampleType : SampleType
  depth : Nat
  sgnd : Bool
  buf : Option Nat
  colbytes : Int
  rowbytes : Int
  deriving DecidableEq

/-- The constructor `Channel()`; `subsampling` is absent from the initialiser
list and so default-constructed by `Subsampling()`. -/
def Channel.ctor : Channel :=
  { width := 0
    height := 0
    subsampling := Subsampling.ctor0
    sampleType := SampleType.UCHAR
    depth := 8
    sgnd := false
    buf := none
    colbytes := 0
    rowbytes := 0 }

/-! ## Capability flags of `Codec` -/

/-- The enumerator `J2K_CAN_NOT_READ = 0`. -/
def J2K_CAN_NOT_READ : Nat := 0

/-- The enumerator `J2K_CAN_READ = (1L << 0)`. -/
def J2K_CAN_READ : Nat := 1 <<< 0

/-- The enumerator `J2K_CAN_SUBSAMPLE = (1L << 1)`. -/
def J2K_CAN_SUBSAMPLE : Nat := 1 <<< 1

/-- The enumerator `J2K_APPLIES_LUT = (1L << 2)`. -/
def J2K_APPLIES_LUT : Nat := 1 <<< 2

/-- The enumerator `J2K_CAN_NOT_WRITE = 0`. -/
def J2K_CAN_NOT_WRITE : Nat := 0

/-- The enumerator `J2K_CAN_WRITE = (1L << 0)`. -/
def J2K_CAN_WRITE : Nat := 1 <<< 0

/-- The three capability bits a `ReadFlags` value is composed of. -/
def readCapabilities : List Nat :=
  [J2K_CAN_READ, J2K_CAN_SUBSAMPLE, J2K_APPLIES_LUT]

/-- The bitwise OR `f1 | f2 | ...` of a collection of flags, starting from the
empty mask. -/
def orFlags (flags : List Nat) : Nat :=
  flags.foldr (fun f acc => f ||| acc) 0

/-! ## Free functions and the codec registry

The header only declares `SizeOfSample`, `SubsampledSize`, `GetCodecList` and
`GetDefaultCodec`; their bodies are in `j2k_codec.cpp`, which is not among the
sources at hand. They are modelled from the specification. -/

/-- Modelled from the spec: the body of `SizeOfSample` (declared in the header,
defined in the absent `j2k_codec.cpp`). The specification gives the storage
size in bytes of each sample type: `UCHAR→1, USHORT→2, UINT→4, INT→4`. -/
def SizeOfSample (type : SampleType) : Nat :=
  match type with
  | SampleType.UCHAR => 1
  | SampleType.USHORT => 2
  | SampleType.UINT => 4
  | SampleType.INT => 4

/-- Modelled from the spec: the body of `SubsampledSize` (declared in the
header as `unsigned int SubsampledSize(unsigned int size, int subsampling)`,
defined in the absent `j2k_codec.cpp`). The specification says it computes
`size / factor` rounded up, never down: the whole quotient, plus one when the
division leaves a remainder. The factor is read over the non-negative values
of `int`, the only ones the specification speaks of. -/
def SubsampledSize (size : Nat) (subsampling : Nat) : Nat :=
  size / subsampling + (if size % subsampling = 0 then 0 else 1)

/-- What the registry can observe of a `Codec` instance: the results of its
four pure virtual queries `Name()`, `FourCharCode()`, `GetReadFlags()` and
`GetWriteFlags()`. -/
structure Codec where
  Name : String
  FourCharCode : String
  GetReadFlags : Nat
  GetWriteFlags : Nat
  deriving DecidableEq

/-- The `typedef std::list<Codec *> CodecList`, in registration order. -/
abbrev CodecList := List Codec

/-- Whether a codec reports the write-capable bit:
`GetWriteFlags() & J2K_CAN_WRITE` is non-zero. -/
def Codec.canWrite (c : Codec) : Bool :=
  c.GetWriteFlags &&& J2K_CAN_WRITE != 0

/-- Modelled from the spec: the body of `GetDefaultCodec` (declared in the
header, defined in the absent `j2k_codec.cpp`), over the list `GetCodecList()`
returns. The specification's selection rule: walk the list in registration
order and take the first codec whose `GetWriteFlags()` includes the
write-capable bit. The specification leaves the case that no codec can write
open; the model returns `none` there. -/
def GetDefaultCodec : CodecList → Option Codec
  | [] => none
  | c :: rest => if c.canWrite then some c else GetDefaultCodec rest

/-- A sample registration order: a codec that can only read, followed by two
codecs that can write. -/
def sampleRegistry : CodecList :=
  [⟨"reader", "rdr ", 1, 0⟩, ⟨"first", "fst ", 7, 1⟩, ⟨"second", "snd ", 1, 1⟩]

end j2k

/-! # After Effects glue: the callback table and the entry point

A shallow embedding of the last two functions of `src/aftereffects/AEIO.cpp`,
`AEIO_ConstructFunctionBlock` and `GPMain_IO`. -/

namespace aftereffects

/-- The host's result type `A_Err`, a signed integer code. -/
abbrev A_Err := Int

/-- The host's `A_Err_NONE`. It is declared in the host's headers, outside the
repository; it is taken to be zero, the value that `A_Err err = A_Err_NONE;`
followed by `if(!err)` in `GPMain_IO` relies on. -/
def A_Err_NONE : A_Err := 0

/-- The `Current_AEIO_FunctionBlock`, a record of function pointers declared in
the host's headers: each slot, known by its member name, holds a pointer, known
by the name of the function it points to, or `none` for a null pointer. -/
abbrev FunctionBlock := String → Option String

/-- One statement `funcs->slot = fn;`. -/
def FunctionBlock.assign (funcs : FunctionBlock) (slot fn : String) : FunctionBlock :=
  fun s => if s = slot then some fn else funcs s

/-- The assignment statements in the body of `AEIO_ConstructFunctionBlock`, in
source order: `(slot, fn)` stands for `funcs->slot = fn;`. -/
def functionBlockAssignments : List (String × String) :=
  [
    ("AEIO_AddFrame", "AEIO_AddFrame"),
    ("AEIO_AddMarker", "AEIO_AddMarker"),
    ("AEIO_AddSoundChunk", "AEIO_AddSoundChunk"),
    ("AEIO_CloseSourceFiles", "AEIO_CloseSourceFiles"),
    ("AEIO_CountUserData", "AEIO_CountUserData"),
    ("AEIO_DisposeInSpec", "AEIO_DisposeInSpec"),
    ("AEIO_DisposeOutputOptions", "AEIO_DisposeOutputOptions"),
    ("AEIO_DrawAuxChannel", "AEIO_DrawAuxChannel"),
    ("AEIO_DrawSparseFrame", "AEIO_DrawSparseFrame"),
    ("AEIO_EndAdding", "AEIO_EndAdding"),
    ("AEIO_FlattenOptions", "AEIO_FlattenOptions"),
    ("AEIO_Flush", "AEIO_Flush"),
    ("AEIO_FreeAuxChannel", "AEIO_FreeAuxChannel"),
    ("AEIO_GetActiveExtent", "AEIO_GetActiveExtent"),
    ("AEIO_GetAuxChannelDesc", "AEIO_GetAuxChannelDesc"),
    ("AEIO_GetDepths", "AEIO_GetDepths"),
    ("AEIO_GetDimensions", "AEIO_GetDimensions"),
    ("AEIO_GetDuration", "AEIO_GetDuration"),
    ("AEIO_GetInSpecInfo", "AEIO_GetInSpecInfo"),
    ("AEIO_GetNthAuxFileSpec", "AEIO_GetNthAuxFileSpec"),
    ("AEIO_GetNumAuxChannels", "AEIO_GetNumAuxChannels"),
    ("AEIO_GetOutputInfo", "AEIO_GetOutputInfo"),
    ("AEIO_GetOutputSuffix", "AEIO_GetOutputSuffix"),
    ("AEIO_GetSizes", "AEIO_GetSizes"),
    ("AEIO_GetSound", "AEIO_GetSound"),
    ("AEIO_GetTime", "AEIO_GetTime"),
    ("AEIO_GetUserData", "AEIO_GetUserData"),
    ("AEIO_Idle", "AEIO_Idle"),
    ("AEIO_InflateOptions", "AEIO_InflateOptions"),
    ("AEIO_InitInSpecFromFile", "AEIO_InitInSpecFromFile"),
    ("AEIO_InitInSpecInteractive", "AEIO_InitInSpecInteractive"),
    ("AEIO_InqNextFrameTime", "AEIO_InqNextFrameTime"),
    ("AEIO_NumAuxFiles", "AEIO_NumAuxFiles"),
    ("AEIO_OutputFrame", "AEIO_OutputFrame"),
    ("AEIO_SeqOptionsDlg", "AEIO_SeqOptionsDlg"),
    ("AEIO_SetOutputFile", "AEIO_SetOutputFile"),
    ("AEIO_SetUserData", "AEIO_SetUserData"),
    ("AEIO_StartAdding", "AEIO_StartAdding"),
    ("AEIO_SynchInSpec", "AEIO_SynchInSpec"),
    ("AEIO_UserOptionsDialog", "AEIO_UserOptionsDialog"),
    ("AEIO_VerifyFileImportable", "AEIO_VerifyFileImportable"),
    ("AEIO_WriteLabels", "AEIO_WriteLabels"),
    ("AEIO_InitOutputSpec", "AEIO_InitOutputSpec"),
    ("AEIO_GetFlatOutputOptions", "AEIO_GetFlatOutputOptions"),
    ("AEIO_OutputInfoChanged", "AEIO_OutputInfoChanged")
  ]

/-- The slots `AEIO_ConstructFunctionBlock` assigns, in source order. -/
def assignedSlots : List String :=
  functionBlockAssignments.map Prod.fst

/-- The `static A_Err` functions `AEIO.cpp` defines, in source order. -/
def definedFunctions : List String :=
  [
    "DeathHook",
    "AEIO_InitInSpecFromFile",
    "AEIO_InitInSpecInteractive",
    "AEIO_DisposeInSpec",
    "AEIO_FlattenOptions",
    "AEIO_InflateOptions",
    "AEIO_SynchInSpec",
    "AEIO_GetActiveExtent",
    "AEIO_GetInSpecInfo",
    "AEIO_DrawSparseFrame",
    "AEIO_GetDimensions",
    "AEIO_GetDuration",
    "AEIO_GetTime",
    "AEIO_GetSound",
    "AEIO_InqNextFrameTime",
    "AEIO_DisposeOutputOptions",
    "AEIO_UserOptionsDialog",
    "AEIO_GetOutputInfo",
    "AEIO_SetOutputFile",
    "AEIO_StartAdding",
    "AEIO_AddFrame",
    "AEIO_EndAdding",
    "AEIO_OutputFrame",
    "AEIO_WriteLabels",
    "AEIO_GetSizes",
    "AEIO_Flush",
    "AEIO_AddSoundChunk",
    "AEIO_Idle",
    "AEIO_GetDepths",
    "AEIO_GetOutputSuffix",
    "AEIO_SeqOptionsDlg",
    "AEIO_GetNumAuxChannels",
    "AEIO_GetAuxChannelDesc",
    "AEIO_DrawAuxChannel",
    "AEIO_FreeAuxChannel",
    "AEIO_NumAuxFiles",
    "AEIO_GetNthAuxFileSpec",
    "AEIO_CloseSourceFiles",
    "AEIO_CountUserData",
    "AEIO_SetUserData",
    "AEIO_GetUserData",
    "AEIO_AddMarker",
    "AEIO_VerifyFileImportable",
    "AEIO_InitOutputSpec",
    "AEIO_OutputInfoChanged",
    "AEIO_GetFlatOutputOptions",
    "AEIO_ConstructModuleInfo",
    "AEIO_ConstructFunctionBlock"
  ]

/-- The function `AEIO_ConstructFunctionBlock(Current_AEIO_FunctionBlock *funcs)`:
`none` is the null pointer. It returns the result code together with the block
`funcs` points to afterwards. The code `A_Err_STRUCT` is declared in the host's
headers, outside the repository, and is an argument here. -/
def AEIO_ConstructFunctionBlock (A_Err_STRUCT : A_Err) (funcs : Option FunctionBlock) :
    A_Err × Option FunctionBlock :=
  match funcs with
  | some block =>
    (A_Err_NONE,
      some (functionBlockAssignments.foldl (fun b p => FunctionBlock.assign b p.1 p.2) block))
  | none => (A_Err_STRUCT, none)

/-- The calls `GPMain_IO` can make, named after the function called. -/
inductive Call where
  | AEGP_RegisterDeathHook
  | AEIO_ConstructModuleInfo
  | AEIO_ConstructFunctionBlock
  | AEGP_RegisterIO
  | FrameSeq_PluginName
  | AEGP_RegisterWithAEGP
  | FrameSeq_Init
  deriving DecidableEq

/-- What the functions outside `AEIO.cpp` return when `GPMain_IO` calls them:
the host's `AEGP_RegisterDeathHook`, `AEGP_RegisterIO` and
`AEGP_RegisterWithAEGP`, and `FrameSeq_ConstructModuleInfo`. Each is called at
most once, so a result code each describes them. -/
structure Host where
  AEGP_RegisterDeathHook : A_Err
  FrameSeq_ConstructModuleInfo : A_Err
  AEGP_RegisterIO : A_Err
  AEGP_RegisterWithAEGP : A_Err

/-- The function `AEIO_ConstructModuleInfo`, which returns what
`FrameSeq_ConstructModuleInfo(info)` returns. -/
def AEIO_ConstructModuleInfo (host : Host) : A_Err :=
  host.FrameSeq_ConstructModuleInfo

/-- The idiom `if(!err) { err = f(...); }` on the pair of the current `err` and
the calls made so far: when `err` is zero the calls `calls` are made and `err`
becomes `result`, otherwise nothing happens. -/
def ifNoErr (s : A_Err × List Call) (calls : List Call) (result : A_Err) :
    A_Err × List Call :=
  if s.1 = 0 then (result, s.2 ++ calls) else s

/-- The entry point `GPMain_IO`. It returns `err` together with the calls made,
in the order made. `funcs` is the content of the local `funcs` before it is
filled, `A_Err_STRUCT` the host's code of that name. The writes to the global
`S_mem_id` decide no branch and are left out. -/
def GPMain_IO (host : Host) (A_Err_STRUCT : A_Err) (funcs : FunctionBlock) :
    A_Err × List Call :=
  let s0 : A_Err × List Call := (A_Err_NONE, [])
  let s1 := ifNoErr s0 [Call.AEGP_RegisterDeathHook] host.AEGP_RegisterDeathHook
  let s2 := ifNoErr s1 [Call.AEIO_ConstructModuleInfo] (AEIO_ConstructModuleInfo host)
  let s3 := ifNoErr s2 [Call.AEIO_ConstructFunctionBlock]
    (AEIO_ConstructFunctionBlock A_Err_STRUCT (some funcs)).1
  let s4 := ifNoErr s3 [ Call.AEGP_RegisterIO] ( Host.AEGP_RegisterIO host)
  let s5 := ifNoErr s4 [Call.FrameSeq_PluginName, Call.AEGP_RegisterWithAEGP]
    host.AEGP_RegisterWithAEGP
  if s5.1 = 0 then (s5.1, s5.2 ++ [Call.FrameSeq_Init]) else s5

end aftereffects

namespace j2k

/-! ## Subsampling arithmetic -/

/-- For a positive factor the subsampled size covers the full size, and no
smaller count does. -/
theorem SubsampledSize_least (size factor : Nat) (hf : 0 < factor) :
    size ≤ SubsampledSize size factor * factor ∧
    ∀ n : Nat, size ≤ n * factor → SubsampledSize size factor ≤ n := by
  unfold SubsampledSize
  have hdm := Nat.div_add_mod size factor
  have hlt := Nat.mod_lt size hf
  constructor
  · split
    · rename_i h0
      rw [h0] at hdm
      simp only [Nat.add_zero] at *
      rw [Nat.mul_comm] at hdm
      omega
    · rw [Nat.add_mul, Nat.mul_comm (size / factor)]
      omega
  · intro n hn
    split
    · simp only [Nat.add_zero]
      exact Nat.div_le_of_le_mul (by rw [Nat.mul_comm]; exact hn)
    · by_contra hcon
      have h1 : n ≤ size / factor := by omega
      have h2 : n * factor ≤ size / factor * factor := Nat.mul_le_mul_right _ h1
      rw [Nat.mul_comm (size / factor)] at h2
      omega

/-- For a positive factor the subsampled size is the ceiling of the exact
quotient, taken in the rationals. -/
theorem SubsampledSize_ceil (size factor : Nat) (hf : 0 < factor) :
    SubsampledSize size factor = ⌈(size : ℚ) / (factor : ℚ)⌉₊ := by
  obtain ⟨hcover, hleast⟩ := SubsampledSize_least size factor hf
  have hfq : (0 : ℚ) < (factor : ℚ) := by exact_mod_cast hf
  apply le_antisymm
  · apply hleast
    have h := Nat.le_ceil ((size : ℚ) / (factor : ℚ))
    rw [div_le_iff₀ hfq] at h
    exact_mod_cast h
  · rw [Nat.ceil_le, div_le_iff₀ hfq]
    exact_mod_cast hcover

/-- For a positive factor the subsampled size never exceeds the full size, so
it fits the `unsigned int` it is returned in. -/
theorem SubsampledSize_le (size factor : Nat) (hf : 0 < factor) :
    SubsampledSize size factor ≤ size := by
  apply (SubsampledSize_least size factor hf).2
  exact Nat.le_mul_of_pos_right size hf

/-- Claim C1: for every size > 0 and every power-of-two factor (which is then
at least 1), `SubsampledSize size factor` is the ceiling of `size / factor`:
it equals the ceiling of the rational quotient, it is the smallest `n` with
`n * factor ≥ size` (it covers the size, and every covering `n` is at least as
large), it lies between 1 and `size`, and `SubsampledSize 11 4 = 3`,
`SubsampledSize 8 4 = 2`. -/
theorem SubsampledSize_rounds_up (size factor : Nat) (hsize : 0 < size)
    (hpow : ∃ k : Nat, factor = 2 ^ k) :
    1 ≤ factor ∧
    SubsampledSize size factor = ⌈(size : ℚ) / (factor : ℚ)⌉₊ ∧
    size ≤ SubsampledSize size factor * factor ∧
    (∀ n : Nat, size ≤ n * factor → SubsampledSize size factor ≤ n) ∧
    1 ≤ SubsampledSize size factor ∧
    SubsampledSize size factor ≤ size ∧
    SubsampledSize 11 4 = 3 ∧ SubsampledSize 8 4 = 2 := by
  obtain ⟨k, rfl⟩ := hpow
  have hf : 0 < 2 ^ k := Nat.pos_pow_of_pos k (by decide)
  obtain ⟨hcover, hleast⟩ := SubsampledSize_least size (2 ^ k) hf
  refine ⟨hf, SubsampledSize_ceil size _ hf, hcover, hleast, ?_,
    SubsampledSize_le size _ hf, by decide, by decide⟩
  by_contra hcon
  have h0 : SubsampledSize size (2 ^ k) = 0 := by omega
  rw [h0] at hcover
  omega

/-- Witness for C1 at size 11 and factor 4 = 2 ^ 2: the result is the ceiling
of 11 / 4, it covers 11, and it is 3. -/
theorem SubsampledSize_rounds_up_witness :
    0 < 11 ∧ (∃ k : Nat, 4 = 2 ^ k) ∧
      SubsampledSize 11 4 = ⌈((11 : Nat) : ℚ) / ((4 : Nat) : ℚ)⌉₊ ∧
      11 ≤ SubsampledSize 11 4 * 4 ∧ SubsampledSize 11 4 = 3 :=
  ⟨by decide, ⟨2, rfl⟩,
    (SubsampledSize_rounds_up 11 4 (by decide) ⟨2, rfl⟩).2.1,
    (SubsampledSize_rounds_up 11 4 (by decide) ⟨2, rfl⟩).2.2.1,
    by decide⟩

/-! ## Default-constructed values -/

/-- Claim C2: a default-constructed `CompressionSettings` has
`method == LOSSLESS`, `layers == 12`, `order == RPCL` and `tileSize == 1024`. -/
theorem CompressionSettings_default_baseline :
    CompressionSettings.ctor.method = CompressionMethod.LOSSLESS ∧
    CompressionSettings.ctor.layers = 12 ∧
    CompressionSettings.ctor.order = Order.RPCL ∧
    CompressionSettings.ctor.tileSize = 1024 :=
  ⟨rfl, rfl, rfl, rfl⟩

/-- Claim C3: whatever the `LUT` storage held before, a default-constructed
`FileInfo` has width, height, channels, depth, dpi, profileLen and LUTsize 0,
a null iccProfile, format `UNKNOWN_FORMAT`, alpha `NO_ALPHA`, colorSpace
`UNKNOWN_COLOR_SPACE`, pixelAspect with num 0 and den 1, channelMap and LUTmap
both `[RED, GREEN, BLUE, ALPHA]`, and settings equal to a default-constructed
`CompressionSettings`. -/
theorem FileInfo_default_values (lut : List LUTentry) :
    (FileInfo.ctor lut).width = 0 ∧
    (FileInfo.ctor lut).height = 0 ∧
    (FileInfo.ctor lut).channels = 0 ∧
    (FileInfo.ctor lut).depth = 0 ∧
    (FileInfo.ctor lut).dpi = 0 ∧
    (FileInfo.ctor lut).profileLen = 0 ∧
    (FileInfo.ctor lut).LUTsize = 0 ∧
    (FileInfo.ctor lut).iccProfile = none ∧
    (FileInfo.ctor lut).format = Format.UNKNOWN_FORMAT ∧
    (FileInfo.ctor lut).alpha = Alpha.NO_ALPHA ∧
    (FileInfo.ctor lut).colorSpace = ColorSpace.UNKNOWN_COLOR_SPACE ∧
    (FileInfo.ctor lut).pixelAspect.num = 0 ∧
    (FileInfo.ctor lut).pixelAspect.den = 1 ∧
    (FileInfo.ctor lut).pixelAspect = Rational.ctor0 ∧
    (FileInfo.ctor lut).channelMap =
      [ChannelName.RED, ChannelName.GREEN, ChannelName.BLUE, ChannelName.ALPHA] ∧
    (FileInfo.ctor lut).LUTmap =
      [ChannelName.RED, ChannelName.GREEN, ChannelName.BLUE, ChannelName.ALPHA] ∧
    (FileInfo.ctor lut).settings = CompressionSettings.ctor :=
  ⟨rfl, rfl, rfl, rfl, rfl, rfl, rfl, rfl, rfl, rfl, rfl, rfl, rfl, rfl, rfl, rfl, rfl⟩

/-! ## Codec registry -/

/-- The test `canWrite` is the test that the write-capable bit of
`GetWriteFlags()` is set. -/
theorem Codec.canWrite_iff (c : Codec) :
    c.canWrite = true ↔ c.GetWriteFlags &&& J2K_CAN_WRITE ≠ 0 := by
  simp [Codec.canWrite]

/-- The default codec of a list with a write-capable member splits the list:
nothing before it can write, and it can. -/
theorem GetDefaultCodec_split (codecs : CodecList)
    (h : ∃ c ∈ codecs, c.canWrite = true) :
    ∃ (before : CodecList) (chosen : Codec) (after : CodecList),
      codecs = before ++ chosen :: after ∧
      GetDefaultCodec codecs = some chosen ∧
      chosen.canWrite = true ∧
      ∀ x ∈ before, x.canWrite = false := by
  induction codecs with
  | nil =>
    obtain ⟨c, hc, _⟩ := h
    cases hc
  | cons c rest ih =>
    by_cases hw : c.canWrite = true
    · refine ⟨[], c, rest, rfl, ?_, hw, ?_⟩
      · simp [GetDefaultCodec, hw]
      · intro x hx
        cases hx
    · have hrest : ∃ d ∈ rest, d.canWrite = true := by
        obtain ⟨d, hd, hdw⟩ := h
        rcases List.mem_cons.mp hd with rfl | hmem
        · exact absurd hdw hw
        · exact ⟨d, hmem, hdw⟩
      obtain ⟨before, chosen, after, hsplit, hdef, hcw, hnone⟩ := ih hrest
      refine ⟨c :: before, chosen, after, ?_, ?_, hcw, ?_⟩
      · rw [hsplit]; rfl
      · simp [GetDefaultCodec, hw, hdef]
      · intro x hx
        rcases List.mem_cons.mp hx with rfl | hmem
        · simpa using hw
        · exact hnone x hmem

/-- Claim C4: for every codec list, in registration order, that contains a
codec whose `GetWriteFlags()` has the `J2K_CAN_WRITE` bit set,
`GetDefaultCodec` returns the first such codec: the list splits around the
returned codec, the returned codec has the bit set, and no codec registered
before it has. -/
theorem GetDefaultCodec_first_writer (codecs : CodecList)
    (h : ∃ c ∈ codecs, c.GetWriteFlags &&& J2K_CAN_WRITE ≠ 0) :
    ∃ (before : CodecList) (chosen : Codec) (after : CodecList),
      codecs = before ++ chosen :: after ∧
      GetDefaultCodec codecs = some chosen ∧
      chosen.GetWriteFlags &&& J2K_CAN_WRITE ≠ 0 ∧
      ∀ x ∈ before, x.GetWriteFlags &&& J2K_CAN_WRITE = 0 := by
  have h1 : ∃ c ∈ codecs, c.canWrite = true := by
    obtain ⟨c, hc, hcw⟩ := h
    exact ⟨c, hc, (Codec.canWrite_iff c).mpr hcw⟩
  obtain ⟨before, chosen, after, hsplit, hdef, hcw, hnone⟩ := GetDefaultCodec_split codecs h1
  refine ⟨before, chosen, after, hsplit, hdef, (Codec.canWrite_iff chosen).mp hcw, ?_⟩
  intro x hx
  have hx1 := hnone x hx
  by_contra hcon
  rw [(Codec.canWrite_iff x).mpr hcon] at hx1
  cases hx1

/-- Witness for C4 on `sampleRegistry`: it contains a writing codec, and the
first of its two writing codecs is the one returned. -/
theorem GetDefaultCodec_first_writer_witness :
    (∃ c ∈ sampleRegistry, c.GetWriteFlags &&& J2K_CAN_WRITE ≠ 0) ∧
      GetDefaultCodec sampleRegistry = some ⟨"first", "fst ", 7, 1⟩ ∧
      ∃ (before : CodecList) (chosen : Codec) (after : CodecList),
        sampleRegistry = before ++ chosen :: after ∧
        GetDefaultCodec sampleRegistry = some chosen ∧
        chosen.GetWriteFlags &&& J2K_CAN_WRITE ≠ 0 ∧
        ∀ x ∈ before, x.GetWriteFlags &&& J2K_CAN_WRITE = 0 :=
  ⟨by decide, by decide,
    GetDefaultCodec_first_writer sampleRegistry (by decide)⟩

/-! ## Sample sizes -/

/-- Claim C5: `SizeOfSample` gives the storage size in bytes of every sample
type: 1 for `UCHAR`, 2 for `USHORT`, 4 for `UINT` and 4 for `INT`. -/
theorem SizeOfSample_bytes :
    SizeOfSample SampleType.UCHAR = 1 ∧
    SizeOfSample SampleType.USHORT = 2 ∧
    SizeOfSample SampleType.UINT = 4 ∧
    SizeOfSample SampleType.INT = 4 :=
  ⟨rfl, rfl, rfl, rfl⟩

/-! ## Capability flags -/

/-- The OR of capability bits stays below 8. -/
theorem orFlags_lt (S : List Nat) (hS : ∀ s ∈ S, s ∈ readCapabilities) :
    orFlags S < 8 := by
  induction S with
  | nil => decide
  | cons x rest ih =>
    have hx : x ∈ readCapabilities := hS x (List.mem_cons_self _ _)
    have hrest : orFlags rest < 8 := ih (fun s hs => hS s (List.mem_cons_of_mem _ hs))
    have hstep : ∀ a ∈ readCapabilities, ∀ t < 8, a ||| t < 8 := by decide
    exact hstep x hx (orFlags rest) hrest

/-- Testing the OR of capability bits against one capability bit tells whether
that bit was among them. -/
theorem orFlags_test (S : List Nat) (f : Nat) (hS : ∀ s ∈ S, s ∈ readCapabilities)
    (hf : f ∈ readCapabilities) :
    orFlags S &&& f ≠ 0 ↔ f ∈ S := by
  induction S with
  | nil =>
    have h0 : ∀ g ∈ readCapabilities, ¬ (orFlags [] &&& g ≠ 0) := by decide
    simpa using h0 f hf
  | cons x rest ih =>
    have hx : x ∈ readCapabilities := hS x (List.mem_cons_self _ _)
    have hS1 : ∀ s ∈ rest, s ∈ readCapabilities := fun s hs => hS s (List.mem_cons_of_mem _ hs)
    have hlt := orFlags_lt rest hS1
    have hstep : ∀ a ∈ readCapabilities, ∀ g ∈ readCapabilities, ∀ t < 8,
        ((a ||| t) &&& g ≠ 0 ↔ (g = a ∨ t &&& g ≠ 0)) := by decide
    have hcons : orFlags (x :: rest) = x ||| orFlags rest := rfl
    rw [hcons, hstep x hx f hf (orFlags rest) hlt, ih hS1, List.mem_cons]

/-- Claim C6: `J2K_CAN_READ`, `J2K_CAN_SUBSAMPLE` and `J2K_APPLIES_LUT` are the
distinct single bits 1, 2 and 4, and for every collection `S` of them and every
flag `f` among them, `(OR of S) & f` is non-zero exactly when `f` is in `S`;
`J2K_CAN_NOT_READ` and `J2K_CAN_NOT_WRITE` are 0, the identity of OR, sharing
no bit with any capability; `J2K_CAN_WRITE` is the single bit 1. -/
theorem capability_flags_compose (S : List Nat) (f : Nat)
    (hS : ∀ s ∈ S, s ∈ readCapabilities) (hf : f ∈ readCapabilities) :
    (J2K_CAN_READ = 2 ^ 0 ∧ J2K_CAN_SUBSAMPLE = 2 ^ 1 ∧ J2K_APPLIES_LUT = 2 ^ 2) ∧
    (J2K_CAN_READ = 1 ∧ J2K_CAN_SUBSAMPLE = 2 ∧ J2K_APPLIES_LUT = 4) ∧
    readCapabilities.Nodup ∧
    (orFlags S &&& f ≠ 0 ↔ f ∈ S) ∧
    (J2K_CAN_NOT_READ = 0 ∧ J2K_CAN_NOT_WRITE = 0) ∧
    (∀ m : Nat, m ||| J2K_CAN_NOT_READ = m ∧ J2K_CAN_NOT_READ ||| m = m) ∧
    (∀ m : Nat, m ||| J2K_CAN_NOT_WRITE = m ∧ J2K_CAN_NOT_WRITE ||| m = m) ∧
    (∀ g ∈ readCapabilities, J2K_CAN_NOT_READ &&& g = 0) ∧
    J2K_CAN_NOT_WRITE &&& J2K_CAN_WRITE = 0 ∧
    J2K_CAN_WRITE = 1 := by
  refine ⟨by decide, by decide, by decide, orFlags_test S f hS hf, by decide, ?_, ?_,
    by decide, by decide, by decide⟩
  · intro m
    simp [J2K_CAN_NOT_READ]
  · intro m
    simp [J2K_CAN_NOT_WRITE]

/-- Witness for C6 at `S = [J2K_CAN_READ, J2K_APPLIES_LUT]`, tested against
`J2K_CAN_SUBSAMPLE`: both are made of capability bits, the mask is 5, and the
bit is neither set in it nor in `S`. -/
theorem capability_flags_compose_witness :
    (∀ s ∈ [J2K_CAN_READ, J2K_APPLIES_LUT], s ∈ readCapabilities) ∧
      J2K_CAN_SUBSAMPLE ∈ readCapabilities ∧
      orFlags [J2K_CAN_READ, J2K_APPLIES_LUT] = 5 ∧
      (orFlags [J2K_CAN_READ, J2K_APPLIES_LUT] &&& J2K_CAN_SUBSAMPLE ≠ 0 ↔
        J2K_CAN_SUBSAMPLE ∈ [J2K_CAN_READ, J2K_APPLIES_LUT]) :=
  ⟨by decide, by decide, by decide,
    (capability_flags_compose [J2K_CAN_READ, J2K_APPLIES_LUT] J2K_CAN_SUBSAMPLE
      (by decide) (by decide)).2.2.2.1⟩

/-! ## Default subsampling -/

/-- Claim C7: the default subsampling is (1,1) wherever it is
default-constructed: `Subsampling()` has x = 1 and y = 1, `FileInfo()` holds
`J2K_CODEC_MAX_CHANNELS` = 4 subsampling entries and each is (1,1), and
`Channel().subsampling` is (1,1); all of them have x ≥ 1 and y ≥ 1. -/
theorem default_subsampling_is_one (lut : List LUTentry) :
    (Subsampling.ctor0.x = 1 ∧ Subsampling.ctor0.y = 1) ∧
    (FileInfo.ctor lut).subsampling.length = 4 ∧
    (∀ s ∈ (FileInfo.ctor lut).subsampling, s.x = 1 ∧ s.y = 1) ∧
    (Channel.ctor.subsampling.x = 1 ∧ Channel.ctor.subsampling.y = 1) ∧
    (1 ≤ Subsampling.ctor0.x ∧ 1 ≤ Subsampling.ctor0.y) ∧
    (∀ s ∈ (FileInfo.ctor lut).subsampling, 1 ≤ s.x ∧ 1 ≤ s.y) ∧
    (1 ≤ Channel.ctor.subsampling.x ∧ 1 ≤ Channel.ctor.subsampling.y) := by
  have hall : ∀ s ∈ (FileInfo.ctor lut).subsampling, s = Subsampling.ctor0 := by
    intro s hs
    exact List.eq_of_mem_replicate hs
  refine ⟨⟨rfl, rfl⟩, rfl, ?_, ⟨rfl, rfl⟩, by decide, ?_, by decide⟩
  · intro s hs
    rw [hall s hs]
    exact ⟨rfl, rfl⟩
  · intro s hs
    rw [hall s hs]
    decide

/-! ## Rational -/

/-- Counterexample to C8 as stated: the constructor accepts `d = 0`, an
`unsigned int` like any other, and `Rational(0, 0)` has `den == 0`. -/
theorem Rational_ctor_den_zero :
    (Rational.ctor 0 0).den = 0 ∧
      ¬ (∀ (n : Int) (d : Nat), d < 2 ^ 32 → (Rational.ctor n d).den ≠ 0) := by
  refine ⟨rfl, ?_⟩
  intro hall
  exact hall 0 0 (by decide) rfl

/-- Claim C8, amended: `Rational(n, d)` stores both arguments unchanged, so the
constructed value has `den != 0` exactly when the argument `d` is non-zero;
with `d` defaulted (`Rational(n)` and `Rational()`) `den` is 1, hence non-zero,
and the default-constructed value is the sentinel with num 0 and den 1. -/
theorem Rational_ctor_den (n : Int) (d : Nat) :
    (Rational.ctor n d).num = n ∧
    (Rational.ctor n d).den = d ∧
    ((Rational.ctor n d).den ≠ 0 ↔ d ≠ 0) ∧
    ((Rational.ctor1 n).num = n ∧ (Rational.ctor1 n).den = 1 ∧ (Rational.ctor1 n).den ≠ 0) ∧
    (Rational.ctor0.num = 0 ∧ Rational.ctor0.den = 1 ∧ Rational.ctor0.den ≠ 0) :=
  ⟨rfl, rfl, Iff.rfl, ⟨rfl, rfl, Nat.one_ne_zero⟩, ⟨rfl, rfl, Nat.one_ne_zero⟩⟩

/-! ## Ranges and remaining defaults of CompressionSettings -/

/-- Claim C9: the default-constructed `CompressionSettings` lies inside the
documented ranges: `layers ≤ J2K_CODEC_MAX_LAYERS`, which is 50, and
`0 ≤ quality ≤ 100`. -/
theorem CompressionSettings_default_in_range :
    CompressionSettings.ctor.layers ≤ J2K_CODEC_MAX_LAYERS ∧
    J2K_CODEC_MAX_LAYERS = 50 ∧
    0 ≤ CompressionSettings.ctor.quality ∧
    CompressionSettings.ctor.quality ≤ 100 := by
  decide

/-- Claim C10: the remaining defaults of `CompressionSettings` are
`fileSize == 50`, `quality == 50`, `dciProfile == DCI_2K`, `ycc == false` and
`reversible == false`; the default thus pairs `method == LOSSLESS` with
`reversible == false`. -/
theorem CompressionSettings_default_rest :
    CompressionSettings.ctor.fileSize = 50 ∧
    CompressionSettings.ctor.quality = 50 ∧
    CompressionSettings.ctor.dciProfile = DCIProfile.DCI_2K ∧
    CompressionSettings.ctor.ycc = false ∧
    CompressionSettings.ctor.reversible = false ∧
    (CompressionSettings.ctor.method = CompressionMethod.LOSSLESS ∧
      CompressionSettings.ctor.reversible = false) :=
  ⟨rfl, rfl, rfl, rfl, rfl, rfl, rfl⟩

end j2k

namespace aftereffects

/-! ## The callback table -/

/-- When every statement of a list assigns a slot the function of the same
name, running the list leaves each assigned slot pointing at its namesake and
every other slot as it was. -/
theorem foldl_assign_same_named (l : List (String × String)) (block : FunctionBlock)
    (s : String) (hsame : ∀ p ∈ l, p.1 = p.2) :
    (l.foldl (fun b p => FunctionBlock.assign b p.1 p.2) block) s =
      if s ∈ l.map Prod.fst then some s else block s := by
  induction l generalizing block with
  | nil => simp
  | cons p rest ih =>
    have hp : p.1 = p.2 := hsame p (List.mem_cons_self _ _)
    have hrest : ∀ q ∈ rest, q.1 = q.2 := fun q hq => hsame q (List.mem_cons_of_mem _ hq)
    rw [List.foldl_cons, ih _ hrest]
    by_cases hmem : s ∈ rest.map Prod.fst
    · simp [hmem]
    · by_cases hs : s = p.1
      · simp [FunctionBlock.assign, hs, ← hp]
      · simp only [List.map_cons, List.mem_cons, hmem, hs, FunctionBlock.assign, or_self,
          if_false]

/-- Every statement of `AEIO_ConstructFunctionBlock` assigns a slot the
function of the same name. -/
theorem functionBlockAssignments_same_named :
    ∀ p ∈ functionBlockAssignments, p.1 = p.2 := by
  decide

/-- No slot is assigned twice. -/
theorem assignedSlots_nodup : assignedSlots.Nodup := by
  decide

/-- Every assigned function is one `AEIO.cpp` defines. -/
theorem assignedSlots_defined : ∀ s ∈ assignedSlots, s ∈ definedFunctions := by
  decide

/-- Claim C11: `AEIO_ConstructFunctionBlock(funcs)` returns `A_Err_STRUCT` if
and only if `funcs` is null (for an `A_Err_STRUCT` other than `A_Err_NONE`).
For every non-null `funcs` it returns `A_Err_NONE` and leaves a block in which
each of the 45 assigned slots, all distinct, points at the function of the same
name, a function `AEIO.cpp` defines (so `AEIO_VerifyFileImportable` at the slot
of that name), no assigned slot points at any other function, and every other
slot is as it was. -/
theorem AEIO_ConstructFunctionBlock_table (A_Err_STRUCT : A_Err)
    (hne : A_Err_STRUCT ≠ A_Err_NONE) (funcs : Option FunctionBlock) :
    ((AEIO_ConstructFunctionBlock A_Err_STRUCT funcs).1 = A_Err_STRUCT ↔ funcs = none) ∧
    (funcs = none → (AEIO_ConstructFunctionBlock A_Err_STRUCT funcs).2 = none) ∧
    (∀ block : FunctionBlock, funcs = some block →
      (AEIO_ConstructFunctionBlock A_Err_STRUCT funcs).1 = A_Err_NONE ∧
      ∃ filled : FunctionBlock,
        (AEIO_ConstructFunctionBlock A_Err_STRUCT funcs).2 = some filled ∧
        (∀ slot ∈ assignedSlots, filled slot = some slot ∧ slot ∈ definedFunctions) ∧
        (∀ slot ∈ assignedSlots, ∀ fn : String, fn ≠ slot → filled slot ≠ some fn) ∧
        (∀ slot : String, slot ∉ assignedSlots → filled slot = block slot)) ∧
    assignedSlots.length = 45 ∧
    assignedSlots.Nodup ∧
    "AEIO_VerifyFileImportable" ∈ assignedSlots := by
  have hfill : ∀ (block : FunctionBlock) (slot : String),
      (functionBlockAssignments.foldl (fun b p => FunctionBlock.assign b p.1 p.2) block) slot =
        if slot ∈ assignedSlots then some slot else block slot := fun block slot =>
    foldl_assign_same_named functionBlockAssignments block slot
      functionBlockAssignments_same_named
  refine ⟨?_, ?_, ?_, by decide, assignedSlots_nodup, by decide⟩
  · cases funcs with
    | none => simp [AEIO_ConstructFunctionBlock]
    | some block =>
      simp only [AEIO_ConstructFunctionBlock, reduceCtorEq, iff_false]
      exact fun h => hne h.symm
  · intro hnull
    rw [hnull]
    rfl
  · intro block hblock
    rw [hblock]
    refine ⟨rfl, _, rfl, ?_, ?_, ?_⟩
    · intro slot hslot
      exact ⟨by rw [hfill, if_pos hslot], assignedSlots_defined slot hslot⟩
    · intro slot hslot fn hfn
      rw [hfill, if_pos hslot]
      intro heq
      exact hfn (Option.some.inj heq).symm
    · intro slot hslot
      rw [hfill, if_neg hslot]

/-- Witness for C11 with `A_Err_STRUCT = 2` and a block whose slots are all
null before the call: 2 is not `A_Err_NONE`, the call returns `A_Err_NONE`, and
the result is `A_Err_STRUCT` exactly for a null `funcs`, which this one is
not. -/
theorem AEIO_ConstructFunctionBlock_table_witness :
    (2 : A_Err) ≠ A_Err_NONE ∧
      (AEIO_ConstructFunctionBlock 2 (some (fun _ => none))).1 = A_Err_NONE ∧
      ((AEIO_ConstructFunctionBlock 2 (some (fun _ => none))).1 = 2 ↔
        some (fun _ => none) = (none : Option FunctionBlock)) :=
  ⟨by decide, rfl,
    (AEIO_ConstructFunctionBlock_table 2 (by decide) (some (fun _ => none))).1⟩

/-! ## The entry point -/

/-- Claim C12: `GPMain_IO` runs its steps in the fixed order
`AEGP_RegisterDeathHook`, `AEIO_ConstructModuleInfo`,
`AEIO_ConstructFunctionBlock`, `AEGP_RegisterIO`, `AEGP_RegisterWithAEGP` (with
`FrameSeq_PluginName` just before the last) and stops at the first error: for
every combination of step results it returns the result of the first step that
does not return `A_Err_NONE` and calls nothing after that step; it returns
`A_Err_NONE` exactly when every step does; and `FrameSeq_Init` is called, once
and last, exactly in that case. The third step, given the address of a local,
always returns `A_Err_NONE`. -/
theorem GPMain_IO_short_circuit (host : Host) (A_Err_STRUCT : A_Err) (funcs : FunctionBlock) :
    (∃ rest : List Call, ( GPMain_IO host A_Err_STRUCT funcs).2 ++ rest =
      [Call.AEGP_RegisterDeathHook, Call.AEIO_ConstructModuleInfo,
        Call.AEIO_ConstructFunctionBlock, Call.AEGP_RegisterIO, Call.FrameSeq_PluginName,
        Call.AEGP_RegisterWithAEGP, Call.FrameSeq_Init]) ∧
    (host.AEGP_RegisterDeathHook ≠ A_Err_NONE →
      GPMain_IO host A_Err_STRUCT funcs =
        (host.AEGP_RegisterDeathHook, [Call.AEGP_RegisterDeathHook])) ∧
    (host.AEGP_RegisterDeathHook = A_Err_NONE →
      AEIO_ConstructModuleInfo host ≠ A_Err_NONE →
      GPMain_IO host A_Err_STRUCT funcs =
        (AEIO_ConstructModuleInfo host,
          [Call.AEGP_RegisterDeathHook, Call.AEIO_ConstructModuleInfo])) ∧
    (host.AEGP_RegisterDeathHook = A_Err_NONE →
      AEIO_ConstructModuleInfo host = A_Err_NONE →
      (AEIO_ConstructFunctionBlock A_Err_STRUCT (some funcs)).1 ≠ A_Err_NONE →
      GPMain_IO host A_Err_STRUCT funcs =
        ((AEIO_ConstructFunctionBlock A_Err_STRUCT (some funcs)).1,
          [Call.AEGP_RegisterDeathHook, Call.AEIO_ConstructModuleInfo,
            Call.AEIO_ConstructFunctionBlock])) ∧
    (host.AEGP_RegisterDeathHook = A_Err_NONE →
      AEIO_ConstructModuleInfo host = A_Err_NONE →
      (AEIO_ConstructFunctionBlock A_Err_STRUCT (some funcs)).1 = A_Err_NONE →
      Host.AEGP_RegisterIO host ≠ A_Err_NONE →
      GPMain_IO host A_Err_STRUCT funcs =
        ( Host.AEGP_RegisterIO host,
          [Call.AEGP_RegisterDeathHook, Call.AEIO_ConstructModuleInfo,
            Call.AEIO_ConstructFunctionBlock, Call.AEGP_RegisterIO])) ∧
    (host.AEGP_RegisterDeathHook = A_Err_NONE →
      AEIO_ConstructModuleInfo host = A_Err_NONE →
      (AEIO_ConstructFunctionBlock A_Err_STRUCT (some funcs)).1 = A_Err_NONE →
      Host.AEGP_RegisterIO host = A_Err_NONE →
      host.AEGP_RegisterWithAEGP ≠ A_Err_NONE →
      GPMain_IO host A_Err_STRUCT funcs =
        (host.AEGP_RegisterWithAEGP,
          [Call.AEGP_RegisterDeathHook, Call.AEIO_ConstructModuleInfo,
            Call.AEIO_ConstructFunctionBlock, Call.AEGP_RegisterIO, Call.FrameSeq_PluginName,
            Call.AEGP_RegisterWithAEGP])) ∧
    (host.AEGP_RegisterDeathHook = A_Err_NONE →
      AEIO_ConstructModuleInfo host = A_Err_NONE →
      (AEIO_ConstructFunctionBlock A_Err_STRUCT (some funcs)).1 = A_Err_NONE →
      Host.AEGP_RegisterIO host = A_Err_NONE →
      host.AEGP_RegisterWithAEGP = A_Err_NONE →
      GPMain_IO host A_Err_STRUCT funcs =
        (A_Err_NONE,
          [Call.AEGP_RegisterDeathHook, Call.AEIO_ConstructModuleInfo,
            Call.AEIO_ConstructFunctionBlock, Call.AEGP_RegisterIO, Call.FrameSeq_PluginName,
            Call.AEGP_RegisterWithAEGP, Call.FrameSeq_Init])) ∧
    (( GPMain_IO host A_Err_STRUCT funcs).1 = A_Err_NONE ↔
      (host.AEGP_RegisterDeathHook = A_Err_NONE ∧
        AEIO_ConstructModuleInfo host = A_Err_NONE ∧
        (AEIO_ConstructFunctionBlock A_Err_STRUCT (some funcs)).1 = A_Err_NONE ∧
        Host.AEGP_RegisterIO host = A_Err_NONE ∧
        host.AEGP_RegisterWithAEGP = A_Err_NONE)) ∧
    ( Call.FrameSeq_Init ∈ ( GPMain_IO host A_Err_STRUCT funcs).2 ↔
      (host.AEGP_RegisterDeathHook = A_Err_NONE ∧
        AEIO_ConstructModuleInfo host = A_Err_NONE ∧
        (AEIO_ConstructFunctionBlock A_Err_STRUCT (some funcs)).1 = A_Err_NONE ∧
        Host.AEGP_RegisterIO host = A_Err_NONE ∧
        host.AEGP_RegisterWithAEGP = A_Err_NONE)) ∧
    ( GPMain_IO host A_Err_STRUCT funcs).2.count Call.FrameSeq_Init ≤ 1 ∧
    (AEIO_ConstructFunctionBlock A_Err_STRUCT (some funcs)).1 = A_Err_NONE := by
  have h3 : (AEIO_ConstructFunctionBlock A_Err_STRUCT (some funcs)).1 = 0 := rfl
  by_cases h1 : host.AEGP_RegisterDeathHook = 0 <;>
  by_cases h2 : host.FrameSeq_ConstructModuleInfo = 0 <;>
  by_cases h4 : Host.AEGP_RegisterIO host = 0 <;>
  by_cases h5 : host.AEGP_RegisterWithAEGP = 0 <;>
  simp [ GPMain_IO, ifNoErr, A_Err_NONE, AEIO_ConstructModuleInfo, h1, h2, h3, h4, h5]

end aftereffects
